import Mathlib

/-!
Shallow embedding of the NFTEST body-diagram sources.

The repository has two source files:

* `src/anatomy.js` — an IIFE with `muscleToTemplate`, `isDiagramRoute`,
  `showTemplate`, `bindDiagram` (guarded by the per-instance marker
  `root.dataset.bound`), and the retry loop `tryBindWithRetries`;
  plus a React component `AnatomyDiagram` with `SAMPLE_REGIONS` and `clamp`.
* `src/unnamed/part_000` — an older autowire variant of the same binder
  (`initBodyDiagram`, no bound marker) re-initialised by a MutationObserver,
  together with its own copy of `muscleToTemplate` and `showTemplate`.

JS strings are modelled as Lean `String` (logically a list of characters);
DOM nodes are modelled by explicit records carrying exactly the fields the
binder reads or writes, with listener installation counted per element.
All functions are total and computable, so concrete runs evaluate by `rfl`
or `decide`.
-/

/-- The constant ROUTE_PREFIX, "#/workouts/diagram" (src/anatomy.js line 4). -/
def ROUTE_PREFIX : String := "#/workouts/diagram"

/-- Embedding of the JavaScript `s.startsWith(p)` primitive on strings:
character-list prefix test. -/
def jsStartsWith (s p : String) : Bool := p.data.isPrefixOf s.data

/-- `isDiagramRoute` (src/anatomy.js lines 24-26): prefix match of the
current hash against the diagram route prefix.  The hash is passed
explicitly instead of read from `location.hash`; the fallback to the empty
string on a missing hash is covered because the empty string is a legal
argument. -/
def isDiagramRoute (hash : String) : Bool := jsStartsWith hash ROUTE_PREFIX

/-- The route built on selection (src/anatomy.js line 35):
`` `${ROUTE_PREFIX}/${regionId}` `` where `regionId` is the template id
with its `-template` suffix removed.  The spec names this pure function
`encodeSelection`. -/
def encodeSelection (regionId : String) : String := ROUTE_PREFIX ++ "/" ++ regionId

/-- Decoding the suffix of a diagram route: drop the prefix together with
the separating slash.  This is the inverse direction the spec describes for
`RouteState.selectedRegionId`. -/
def decodeSelection (route : String) : String :=
  String.mk (route.data.drop (ROUTE_PREFIX ++ "/").data.length)

/-- Embedding of the JavaScript replace call with a string pattern and an
empty replacement: remove the first occurrence of `pat` from `s` (used to
strip the "-template" suffix from a template id). -/
def jsReplaceFirstAux (pat : List Char) : List Char → List Char
  | [] => []
  | c :: cs =>
    if pat.isPrefixOf (c :: cs) then (c :: cs).drop pat.length
    else c :: jsReplaceFirstAux pat cs

/-- String wrapper of `jsReplaceFirstAux`. -/
def jsReplaceFirst (s pat : String) : String :=
  String.mk (jsReplaceFirstAux pat.data s.data)

/-- `muscleToTemplate` (src/anatomy.js lines 6-22), as an association
list in source order; JS object property access becomes lookup by key. -/
def muscleToTemplate : List (String × String) :=
  [ ("chest",  "chest-template"),
    ("biceps", "biceps-template"),
    ("biceps2","biceps2-template"),
    ("abs",    "abs-template"),
    ("quadsL", "quadsL-template"),
    ("quadsR", "quadsR-template"),
    ("traps",  "traps-template"),
    ("deltsL", "deltsL-template"),
    ("deltsR", "deltsR-template"),
    ("lats",   "lats-template"),
    ("glutes", "glutes-template"),
    ("hamsL",  "hamsL-template"),
    ("hamsR",  "hamsR-template") ]

/-- `muscleToTemplate[el.id]`: property lookup, `none` when absent. -/
def lookupTemplate (id : String) : Option String :=
  (muscleToTemplate.find? (fun kv => kv.1 == id)).map (fun kv => kv.2)

/-- The text of the warning emitted for an unmapped region id
(src/anatomy.js line 69). -/
def warnNoTemplate : String := "No template mapped for"

/-- Observable page state touched by `showTemplate` and the click
handlers: the set of template elements present in the document, the `#app`
element content (`none` when `#app` is absent), the location hash, and the
console warning log. -/
structure Page where
  templates : List String
  app : Option (List String)
  hash : String
  warnings : List (String × String)
deriving DecidableEq

/-- `showTemplate` (src/anatomy.js lines 28-36): if the template element
and `#app` both exist, replace the app content with the instantiated
template and reflect the selection in the URL; otherwise do nothing. -/
def showTemplate (tplId : String) (p : Page) : Page :=
  if p.templates.contains tplId ∧ p.app.isSome then
    { p with
      app := some [tplId],
      hash := encodeSelection (jsReplaceFirst tplId "-template") }
  else p

/-- The click listener installed on a hit element (src/anatomy.js lines
66-70): resolve the element id through `muscleToTemplate`; on a hit, show
the template; otherwise emit a `console.warn` line and change nothing
else.  The function is total: no exception channel exists. -/
def regionClick (eid : String) (p : Page) : Page :=
  match lookupTemplate eid with
  | some tpl => showTemplate tpl p
  | none => { p with warnings := p.warnings ++ [(warnNoTemplate, eid)] }

/-- Pointer activation of a hit element: dispatching a click runs the one
installed click listener. -/
def pointerActivate (eid : String) (p : Page) : Page := regionClick eid p

/-- The keydown listener installed on a hit element (src/anatomy.js lines
63-65): on Enter or Space, prevent the default action and call
`el.click()`, which dispatches the installed click listener; any other key
leaves the page untouched. -/
def keydownHandler (eid : String) (key : String) (p : Page) : Page :=
  if key == "Enter" || key == " " then regionClick eid p else p

/-- A hit element inside a view container: its id attribute, the
accessibility attributes the binder writes, and per-kind counts of
installed listeners. -/
structure HitElem where
  eid : String
  role : Option String
  tabIndex : Option Int
  keydownListeners : Nat
  clickListeners : Nat
deriving DecidableEq

/-- A view container (`#frontView` or `#backView`): its CSS display value
and the descendant elements bearing an id attribute. -/
structure Container where
  display : String
  elems : List HitElem
deriving DecidableEq

/-- The `#toggleViewBtn` control: its text content and the count of
installed click listeners. -/
structure ToggleBtn where
  label : String
  listeners : Nat
deriving DecidableEq

/-- A diagram surface (the `section.card` root handed to the binder).
`bound` models the "1"-valued `root.dataset.bound` marker; the three `Option`
fields model the `querySelector` results for the front container, the back
container and the toggle control; `isFront` is the view flag captured by
the toggle click listener (meaningful once the listener is installed). -/
structure Surface where
  bound : Bool
  front : Option Container
  back : Option Container
  toggle : Option ToggleBtn
  isFront : Bool
deriving DecidableEq

/-- The per-element work of the `clickable.forEach` body (src/anatomy.js
lines 60-71): set role "button", make the element focusable, and install
one keydown listener and one click listener. -/
def bindHitElement (e : HitElem) : HitElem :=
  { e with
    role := some "button",
    tabIndex := some 0,
    keydownListeners := e.keydownListeners + 1,
    clickListeners := e.clickListeners + 1 }

/-- `bindDiagram` (src/anatomy.js lines 38-75).  `none` models a falsy
`root`.  Returns the JS boolean result together with the surface after the
call.  On success the front view is shown, the back view hidden, the
toggle label set, one click listener installed on the toggle, the
activation listeners installed on every id-bearing element of both
containers, and the bound marker stamped. -/
def bindDiagram (root : Option Surface) : Bool × Option Surface :=
  match root with
  | none => (false, none)
  | some s =>
    if s.bound then (false, some s)
    else
      match s.front, s.back, s.toggle with
      | some f, some b, some t =>
        (true, some
          { bound := true,
            front := some { display := "block", elems := f.elems.map bindHitElement },
            back := some { display := "none", elems := b.elems.map bindHitElement },
            toggle := some { label := "Show Back View", listeners := t.listeners + 1 },
            isFront := true })
      | _, _, _ => (false, some s)

/-- The surface produced by a successful `bindDiagram` on a root with
containers `f`, `b` and toggle `t`. -/
def boundOf (f b : Container) (t : ToggleBtn) : Surface :=
  { bound := true,
    front := some { display := "block", elems := f.elems.map bindHitElement },
    back := some { display := "none", elems := b.elems.map bindHitElement },
    toggle := some { label := "Show Back View", listeners := t.listeners + 1 },
    isFront := true }

/-- The bound surface after an odd number of toggle activations: back view
shown, front hidden, label offering the front view. -/
def flippedOf (f b : Container) (t : ToggleBtn) : Surface :=
  { bound := true,
    front := some { display := "none", elems := f.elems.map bindHitElement },
    back := some { display := "block", elems := b.elems.map bindHitElement },
    toggle := some { label := "Show Front View", listeners := t.listeners + 1 },
    isFront := false }

/-- An unbound root holding containers `f`, `b` and toggle `t`. -/
def mkRoot (f b : Container) (t : ToggleBtn) (isF : Bool) : Surface :=
  { bound := false, front := some f, back := some b, toggle := some t, isFront := isF }

/-- The toggle click listener (src/anatomy.js lines 52-57): flip the view
flag, set the two display values from the new flag, set the label from the
new flag.  It touches nothing else: no listener is installed or removed. -/
def toggleActivate (s : Surface) : Surface :=
  let f := !s.isFront
  { s with
    isFront := f,
    front := s.front.map (fun c => { c with display := if f then "block" else "none" }),
    back := s.back.map (fun c => { c with display := if f then "none" else "block" }),
    toggle := s.toggle.map (fun t => { t with label := if f then "Show Back View" else "Show Front View" }) }

/-- The display value of an optional container (empty when absent). -/
def displayOf : Option Container → String
  | some c => c.display
  | none => ""

/-- The elements of an optional container. -/
def elemsOf : Option Container → List HitElem
  | some c => c.elems
  | none => []

/-- The toggle label of a surface (empty when the toggle is absent). -/
def labelOf : Option ToggleBtn → String
  | some t => t.label
  | none => ""

/-- Count of click listeners on the toggle control. -/
def toggleListenersOf (s : Surface) : Nat :=
  match s.toggle with
  | some t => t.listeners
  | none => 0

/-- Total number of installed listeners on a surface: the toggle click
listener plus the keydown and click listeners of every element of both
containers. -/
def listenerCount (s : Surface) : Nat :=
  toggleListenersOf s
    + ((elemsOf s.front).map (fun e => e.keydownListeners + e.clickListeners)).sum
    + ((elemsOf s.back).map (fun e => e.keydownListeners + e.clickListeners)).sum

/-- Exactly one of the two views is visible: one display is "block" and
the other "none". -/
def exactlyOneVisible (s : Surface) : Bool :=
  (displayOf s.front == "block" && displayOf s.back == "none")
    || (displayOf s.front == "none" && displayOf s.back == "block")

/-- The toggle label names the inactive view. -/
def labelNamesInactive (s : Surface) : Bool :=
  if s.isFront then labelOf s.toggle == "Show Back View"
  else labelOf s.toggle == "Show Front View"

/-- Whether the candidate section holds a diagram surface
(src/anatomy.js line 85): the section exists and contains a
`#frontView` or a `#backView`. -/
def hasDiagramIn : Option Surface → Bool
  | none => false
  | some s => s.front.isSome || s.back.isSome

/-- The `tick` loop of `tryBindWithRetries` (src/anatomy.js lines 82-90).
`env k` is the `section.card` candidate the DOM offers on tick `k`
(`none` when absent); `n` is the current tick number and the second
argument the remaining attempt budget (`maxTries - tries`).  One scheduled
callback runs per tick; real time (`delayMs`) plays no role in the result.
The result is the number of `bindDiagram` calls issued and, on success,
the tick on which the bind succeeded; exhaustion gives `none` with no
error artifact, matching the give-up-quietly policy. -/
def tickLoop (env : Nat → Option Surface) : Nat → Nat → Nat × Option Nat
  | _, 0 => (0, none)
  | n, r + 1 =>
    if hasDiagramIn (env n) then
      if (bindDiagram (env n)).1 then (1, some n)
      else if r = 0 then (1, none)
      else
        let rest := tickLoop env (n + 1) r
        (rest.1 + 1, rest.2)
    else
      if r = 0 then (0, none)
      else tickLoop env (n + 1) r

/-- `tryBindWithRetries` (src/anatomy.js lines 78-93): do nothing unless
the current route is a diagram route, else run the tick loop starting at
tick 1 with the given attempt budget.  `delayMs` only spaces the ticks in
real time and does not affect the result. -/
def tryBindWithRetries (routeOk : Bool) (env : Nat → Option Surface)
    (maxTries delayMs : Nat) : Option (Nat × Option Nat) :=
  if routeOk then some (tickLoop env 1 maxTries) else none

namespace Autowire

/-- `muscleToTemplate` as duplicated in src/unnamed/part_000 lines 4-20. -/
def muscleToTemplate : List (String × String) :=
  [ ("chest",  "chest-template"),
    ("biceps", "biceps-template"),
    ("biceps2","biceps2-template"),
    ("abs",    "abs-template"),
    ("quadsL", "quadsL-template"),
    ("quadsR", "quadsR-template"),
    ("traps",  "traps-template"),
    ("deltsL", "deltsL-template"),
    ("deltsR", "deltsR-template"),
    ("lats",   "lats-template"),
    ("glutes", "glutes-template"),
    ("hamsL",  "hamsL-template"),
    ("hamsR",  "hamsR-template") ]

/-- Lookup in the part_000 copy of the table. -/
def lookupTemplate (id : String) : Option String :=
  (Autowire.muscleToTemplate.find? (fun kv => kv.1 == id)).map (fun kv => kv.2)

/-- `initBodyDiagram` (src/unnamed/part_000 lines 32-68).  Identical to
`bindDiagram` except that the root is known non-null at the call site and
there is no `dataset.bound` marker: the function neither reads nor writes
any per-instance bound state, so every call on a structurally complete
surface installs a fresh set of listeners and returns `true`. -/
def initBodyDiagram (s : Surface) : Bool × Surface :=
  match s.front, s.back, s.toggle with
  | some f, some b, some t =>
    (true,
      { s with
        front := some { display := "block", elems := f.elems.map bindHitElement },
        back := some { display := "none", elems := b.elems.map bindHitElement },
        toggle := some { label := "Show Back View", listeners := t.listeners + 1 },
        isFront := true })
  | _, _, _ => (false, s)

end Autowire

/-- `AnatomyView` (src/anatomy.js React part): "front" or "back". -/
inductive AnatomyView
  | front
  | back
deriving DecidableEq, BEq

/-- The normalized percentage box of a region: left, top, width, height. -/
structure RegionBox where
  left : ℚ
  top : ℚ
  width : ℚ
  height : ℚ
deriving DecidableEq

/-- `MuscleRegion` (src/anatomy.js React part): key, label, view, box. -/
structure MuscleRegion where
  key : String
  label : String
  view : AnatomyView
  box : RegionBox
deriving DecidableEq

/-- `SAMPLE_REGIONS` (src/anatomy.js React part, lines 140-159), in source
order with the source literals. -/
def SAMPLE_REGIONS : List MuscleRegion :=
  [ { key := "shoulders", label := "Deltoids", view := .front,
      box := { left := 42.8, top := 21.0, width := 14.4, height := 6.0 } },
    { key := "chest", label := "Chest (Pectorals)", view := .front,
      box := { left := 41.0, top := 27.5, width := 18.0, height := 7.5 } },
    { key := "biceps", label := "Biceps", view := .front,
      box := { left := 35.5, top := 29.5, width := 7.0, height := 10.0 } },
    { key := "triceps", label := "Triceps", view := .front,
      box := { left := 57.5, top := 29.5, width := 7.0, height := 10.0 } },
    { key := "abs", label := "Abs (Rectus Abdominis)", view := .front,
      box := { left := 45.0, top := 36.9, width := 10.0, height := 11.0 } },
    { key := "obliques", label := "Obliques", view := .front,
      box := { left := 39.5, top := 38.0, width := 21.0, height := 10.0 } },
    { key := "quads", label := "Quads", view := .front,
      box := { left := 44.0, top := 52.0, width := 12.0, height := 17.0 } },
    { key := "adductors", label := "Adductors", view := .front,
      box := { left := 47.0, top := 50.0, width := 6.0, height := 10.0 } },
    { key := "calves_f", label := "Calves", view := .front,
      box := { left := 45.3, top := 72.5, width := 9.4, height := 12.0 } },
    { key := "traps", label := "Trapezius", view := .back,
      box := { left := 44.0, top := 22.5, width := 12.0, height := 7.0 } },
    { key := "lats", label := "Lats", view := .back,
      box := { left := 41.0, top := 30.0, width := 18.0, height := 10.0 } },
    { key := "erectors", label := "Spinal Erectors", view := .back,
      box := { left := 46.0, top := 38.0, width := 8.0, height := 11.0 } },
    { key := "glutes", label := "Glutes", view := .back,
      box := { left := 44.0, top := 49.5, width := 12.0, height := 10.0 } },
    { key := "hamstrings", label := "Hamstrings", view := .back,
      box := { left := 44.0, top := 57.5, width := 12.0, height := 14.0 } },
    { key := "calves_b", label := "Calves", view := .back,
      box := { left := 45.3, top := 73.0, width := 9.4, height := 12.0 } } ]

/-- `clamp` (src/anatomy.js React part, line 162):
`Math.max(lo, Math.min(hi, n))`; the source defaults are `lo = 0`,
`hi = 100` and every call site uses them. -/
def clamp (n lo hi : ℚ) : ℚ := max lo (min hi n)

/-- `filtered` in the component: regions of the currently shown view.
No region is ever rejected on account of its box geometry. -/
def filteredRegions (regions : List MuscleRegion) (v : AnatomyView) : List MuscleRegion :=
  regions.filter (fun r => r.view == v)

/-- The box actually rendered for a region: each percentage passed through
`clamp` with the default bounds, as in the component style block. -/
def renderedBox (r : MuscleRegion) : RegionBox :=
  { left := clamp r.box.left 0 100,
    top := clamp r.box.top 0 100,
    width := clamp r.box.width 0 100,
    height := clamp r.box.height 0 100 }

/-- A concrete hit element carrying the chest region id, used in concrete
runs of the binder. -/
def elemChest : HitElem :=
  { eid := "chest", role := none, tabIndex := none,
    keydownListeners := 0, clickListeners := 0 }

/-- A concrete front container holding one hit element. -/
def frontC : Container := { display := "", elems := [elemChest] }

/-- A concrete empty back container. -/
def backC : Container := { display := "", elems := [] }

/-- A concrete toggle control with no listeners installed yet. -/
def togC : ToggleBtn := { label := "", listeners := 0 }

/-- A concrete structurally complete unbound root. -/
def rootC : Surface := mkRoot frontC backC togC true

/-- A concrete root missing all three required sub-elements. -/
def emptyRoot : Surface :=
  { bound := false, front := none, back := none, toggle := none, isFront := true }

/-- A concrete page holding one template element and an empty app mount. -/
def pageC : Page :=
  { templates := ["chest-template"], app := some [],
    hash := "#/workouts/diagram", warnings := [] }

/-- A tick environment in which the diagram surface appears on tick 5 and
on no other tick. -/
def envHit : Nat → Option Surface := fun n => if n = 5 then some rootC else none

/-- A tick environment in which the diagram surface never appears. -/
def envEmpty : Nat → Option Surface := fun _ => none

/-- The first entry of SAMPLE_REGIONS, spelled out. -/
def regionShoulders : MuscleRegion :=
  { key := "shoulders", label := "Deltoids", view := .front,
    box := { left := 42.8, top := 21.0, width := 14.4, height := 6.0 } }

/-- The derived equality test on views holds reflexively. -/
theorem view_beq_refl (v : AnatomyView) : (v == v) = true := by
  cases v <;> rfl

/-- A second call of the marker-guarded binder on the surface left by a
first call always returns `false` and leaves the surface untouched,
whatever the first call did: the marker makes binding exactly-once. -/
theorem bindDiagram_second_call_noop (root : Option Surface) :
    bindDiagram (bindDiagram root).2 = (false, (bindDiagram root).2) := by
  match root with
  | none => rfl
  | some s =>
    obtain ⟨b0, fr, bk, tg, iF⟩ := s
    cases b0 <;> cases fr <;> cases bk <;> cases tg <;> rfl

/-- Claim C3: for every region id, the encoded route has the fixed shape
of the diagram route prefix, a slash, and the id; `isDiagramRoute` accepts
that route; and dropping the prefix together with the slash recovers the
id exactly (round-trip identity). -/
theorem encode_route_roundtrip (id : String) :
    encodeSelection id = ROUTE_PREFIX ++ "/" ++ id ∧
    isDiagramRoute (encodeSelection id) = true ∧
    decodeSelection (encodeSelection id) = id := by
  refine ⟨rfl, ?_, ?_⟩
  · unfold isDiagramRoute jsStartsWith encodeSelection
    rw [List.isPrefixOf_iff_prefix, String.data_append, String.data_append,
      List.append_assoc]
    exact List.prefix_append _ _
  · unfold decodeSelection encodeSelection
    simp only [String.data_append]
    rw [List.drop_left]

/-- Claim C9: the two independently defined muscle-to-template tables of
the two binder implementations are extensionally equal: the same keys map
to the same template ids, and every lookup agrees. -/
theorem duplicate_tables_agree :
    muscleToTemplate = Autowire.muscleToTemplate ∧
    ∀ id : String, lookupTemplate id = Autowire.lookupTemplate id :=
  ⟨rfl, fun _ => rfl⟩

/-- Claim C5: when any of the three required sub-elements fails to
resolve, both binders return `false` and leave the surface exactly as it
was: no visibility change, no label change, no listener installed. -/
theorem bind_missing_parts_no_mutation (s : Surface)
    (h : s.front = none ∨ s.back = none ∨ s.toggle = none) :
    bindDiagram (some s) = (false, some s) ∧
    Autowire.initBodyDiagram s = (false, s) := by
  obtain ⟨b0, fr, bk, tg, iF⟩ := s
  cases b0 <;> cases fr <;> cases bk <;> cases tg <;>
    simp_all [bindDiagram, Autowire.initBodyDiagram]

/-- Witness for C5 at a root with all three sub-elements missing. -/
theorem bind_missing_parts_no_mutation_witness :
    bindDiagram (some emptyRoot) = (false, some emptyRoot) ∧
    Autowire.initBodyDiagram emptyRoot = (false, emptyRoot) :=
  bind_missing_parts_no_mutation emptyRoot (Or.inl rfl)

/-- Claim C7: activating a hit element whose id has no entry in the
muscle-to-template table only appends one warning line: the hash, the app
content and the template set are unchanged, and no exception exists since
the handler is a total function. -/
theorem unmapped_region_click_noop (eid : String) (p : Page)
    (h : lookupTemplate eid = none) :
    regionClick eid p = { p with warnings := p.warnings ++ [(warnNoTemplate, eid)] } ∧
    (regionClick eid p).hash = p.hash ∧
    (regionClick eid p).app = p.app ∧
    (regionClick eid p).templates = p.templates := by
  unfold regionClick
  rw [h]
  exact ⟨rfl, rfl, rfl, rfl⟩

/-- Witness for C7 at the unmapped id "head". -/
theorem unmapped_region_click_noop_witness :
    regionClick "head" pageC
      = { pageC with warnings := pageC.warnings ++ [(warnNoTemplate, "head")] } ∧
    (regionClick "head" pageC).hash = pageC.hash ∧
    (regionClick "head" pageC).app = pageC.app ∧
    (regionClick "head" pageC).templates = pageC.templates :=
  unmapped_region_click_noop "head" pageC rfl

/-- Claim C8: a keyboard activation with Enter or Space produces exactly
the same page transition as a pointer activation, because the keydown
listener dispatches the single installed click listener; and the binder
gives every hit element role "button", makes it focusable, and installs
the keydown listener. -/
theorem keyboard_pointer_activation_equiv (eid key : String) (p : Page)
    (e : HitElem) (h : key = "Enter" ∨ key = " ") :
    keydownHandler eid key p = pointerActivate eid p ∧
    (bindHitElement e).role = some "button" ∧
    (bindHitElement e).tabIndex = some 0 ∧
    (bindHitElement e).keydownListeners = e.keydownListeners + 1 := by
  refine ⟨?_, rfl, rfl, rfl⟩
  rcases h with h | h <;> subst h <;> rfl

/-- Witness for C8 at the Enter key on an unmapped id. -/
theorem keyboard_pointer_activation_equiv_witness :
    keydownHandler "head" "Enter" pageC = pointerActivate "head" pageC ∧
    (bindHitElement elemChest).role = some "button" ∧
    (bindHitElement elemChest).tabIndex = some 0 ∧
    (bindHitElement elemChest).keydownListeners = elemChest.keydownListeners + 1 :=
  keyboard_pointer_activation_equiv "head" "Enter" pageC elemChest (Or.inl rfl)

/-- Claim C1, checked against the autowire binder of src/unnamed/part_000:
`initBodyDiagram` carries no per-instance bound marker, so a second call
on the very same structurally complete surface returns `true` again (the
claim says `false`) and installs a second full set of listeners, doubling
the total listener count from 3 to 6 (the claim says it is unchanged).
The marker-guarded `bindDiagram` of src/anatomy.js does satisfy the claim
(see `bindDiagram_second_call_noop`); the unguarded duplicate is the
slip.  -/
theorem autowire_rebind_installs_duplicates :
    (Autowire.initBodyDiagram rootC).1 = true ∧
    listenerCount (Autowire.initBodyDiagram rootC).2 = 3 ∧
    (Autowire.initBodyDiagram (Autowire.initBodyDiagram rootC).2).1 = true ∧
    listenerCount (Autowire.initBodyDiagram (Autowire.initBodyDiagram rootC).2).2 = 6 :=
  ⟨rfl, rfl, rfl, rfl⟩

/-- One toggle activation on the freshly bound state yields the flipped
state: back visible, front hidden, label offering the front view. -/
theorem toggleActivate_boundOf (f b : Container) (t : ToggleBtn) :
    toggleActivate (boundOf f b t) = flippedOf f b t := rfl

/-- One toggle activation on the flipped state returns to the bound
initial state. -/
theorem toggleActivate_flippedOf (f b : Container) (t : ToggleBtn) :
    toggleActivate (flippedOf f b t) = boundOf f b t := rfl

/-- After `n` toggle activations the surface is the initial bound state
for even `n` and the flipped state for odd `n`. -/
theorem toggleActivate_iterate (f b : Container) (t : ToggleBtn) (n : Nat) :
    toggleActivate^[n] (boundOf f b t)
      = if n % 2 = 0 then boundOf f b t else flippedOf f b t := by
  induction n with
  | zero => rfl
  | succ n ih =>
    rw [Function.iterate_succ_apply', ih]
    rcases Nat.mod_two_eq_zero_or_one n with h | h
    · rw [if_pos h, if_neg (by omega), toggleActivate_boundOf]
    · rw [if_neg (by omega), if_pos (by omega), toggleActivate_flippedOf]

/-- Claim C4: binding a structurally complete root succeeds and leaves the
front view visible; each toggle activation is a single atomic transition
of the model, after which exactly one view is visible and the label names
the inactive view; `n` activations reproduce the initial state when `n` is
even and the flipped state when `n` is odd. -/
theorem toggle_parity_exactly_one_visible (f b : Container) (t : ToggleBtn)
    (isF : Bool) (n : Nat) :
    bindDiagram (some (mkRoot f b t isF)) = (true, some (boundOf f b t)) ∧
    toggleActivate^[n] (boundOf f b t)
      = (if n % 2 = 0 then boundOf f b t else flippedOf f b t) ∧
    exactlyOneVisible (toggleActivate^[n] (boundOf f b t)) = true ∧
    labelNamesInactive (toggleActivate^[n] (boundOf f b t)) = true := by
  refine ⟨rfl, toggleActivate_iterate f b t n, ?_, ?_⟩ <;>
    rw [toggleActivate_iterate f b t n] <;>
    rcases Nat.mod_two_eq_zero_or_one n with h | h <;>
    simp [h, exactlyOneVisible, labelNamesInactive, boundOf, flippedOf,
      displayOf, labelOf]

/-- Claim C10: a successful bind installs the activation listeners on
every id-bearing element of both containers at bind time, the back
container included even though its display is "none"; and a toggle
activation is a pure visibility-and-label transition: it preserves the
element lists of both containers (hence every installed listener), the
toggle listener count and the bound marker. -/
theorem bind_covers_hidden_view_toggle_frame (f b : Container) (t : ToggleBtn)
    (isF : Bool) (s : Surface) (e : HitElem) :
    bindDiagram (some (mkRoot f b t isF)) = (true, some (boundOf f b t)) ∧
    elemsOf (boundOf f b t).front = f.elems.map bindHitElement ∧
    elemsOf (boundOf f b t).back = b.elems.map bindHitElement ∧
    displayOf (boundOf f b t).back = "none" ∧
    (bindHitElement e).clickListeners = e.clickListeners + 1 ∧
    (bindHitElement e).keydownListeners = e.keydownListeners + 1 ∧
    elemsOf (toggleActivate s).front = elemsOf s.front ∧
    elemsOf (toggleActivate s).back = elemsOf s.back ∧
    toggleListenersOf (toggleActivate s) = toggleListenersOf s ∧
    (toggleActivate s).bound = s.bound := by
  obtain ⟨b0, fr, bk, tg, iF⟩ := s
  refine ⟨rfl, rfl, rfl, rfl, rfl, rfl, ?_, ?_, ?_, rfl⟩
  · cases fr <;> rfl
  · cases bk <;> rfl
  · cases tg <;> rfl

/-- A successful bind presupposes that the detection predicate saw a
diagram marker: bind success forces a front or back container. -/
theorem hasDiagramIn_of_bindSuccess (s : Surface)
    (h : (bindDiagram (some s)).1 = true) : hasDiagramIn (some s) = true := by
  obtain ⟨b0, fr, bk, tg, iF⟩ := s
  cases b0 <;> cases fr <;> cases bk <;> cases tg <;>
    simp_all [bindDiagram, hasDiagramIn]

/-- A tick that finds no diagram surface issues no bind call and only
consumes one attempt from the budget. -/
theorem tickLoop_skip (env : Nat → Option Surface) (n r : Nat)
    (h : hasDiagramIn (env n) = false) :
    tickLoop env n (r + 1) = tickLoop env (n + 1) r := by
  cases r with
  | zero => simp [tickLoop, h]
  | succ m => simp [tickLoop, h]

/-- A tick that finds a bindable surface issues one bind call and ends the
session successfully on the current tick. -/
theorem tickLoop_hit (env : Nat → Option Surface) (n r : Nat)
    (hd : hasDiagramIn (env n) = true)
    (hb : (bindDiagram (env n)).1 = true) :
    tickLoop env n (r + 1) = (1, some n) := by
  simp [tickLoop, hd, hb]

/-- If no tick of the whole budget finds a diagram surface, the session
ends with zero bind calls and no success tick. -/
theorem tickLoop_all_empty (env : Nat → Option Surface) :
    ∀ r n, (∀ k, n ≤ k → k < n + r → hasDiagramIn (env k) = false) →
      tickLoop env n r = (0, none) := by
  intro r
  induction r with
  | zero => intro n _; rfl
  | succ m ih =>
    intro n h
    rw [tickLoop_skip env n m (h n le_rfl (by omega))]
    exact ih (n + 1) (fun k hk1 hk2 => h k (by omega) (by omega))

/-- Claim C2: with the 40-tick budget at 50 ms, an empty tick makes no
bind call and consumes one attempt (third conjunct); if the surface first
appears, bindable, on tick 5, the watcher issues exactly one bind call and
stops successfully on tick 5 (first conjunct); if no diagram surface
appears on any of the 40 ticks, the watcher makes zero bind calls and
finishes silently with no error artifact — the result is a plain pair,
there is no error channel (second conjunct). -/
theorem retry_watcher_scenarios
    (env1 env2 env3 : Nat → Option Surface) (s : Surface) (m r : Nat)
    (hEmpty : ∀ k, 1 ≤ k → k ≤ 4 → hasDiagramIn (env1 k) = false)
    (hAppear : env1 5 = some s)
    (hBind : (bindDiagram (some s)).1 = true)
    (hNever : ∀ k, 1 ≤ k → k ≤ 40 → hasDiagramIn (env2 k) = false)
    (hSkip : hasDiagramIn (env3 m) = false) :
    tryBindWithRetries true env1 40 50 = some (1, some 5) ∧
    tryBindWithRetries true env2 40 50 = some (0, none) ∧
    tickLoop env3 m (r + 1) = tickLoop env3 (m + 1) r := by
  refine ⟨?_, ?_, tickLoop_skip env3 m r hSkip⟩
  · show some (tickLoop env1 1 40) = some (1, some 5)
    have hd5 : hasDiagramIn (env1 5) = true := by
      rw [hAppear]; exact hasDiagramIn_of_bindSuccess s hBind
    have hb5 : (bindDiagram (env1 5)).1 = true := by rw [hAppear]; exact hBind
    have e1 : tickLoop env1 1 40 = tickLoop env1 2 39 :=
      tickLoop_skip env1 1 39 (hEmpty 1 (by omega) (by omega))
    have e2 : tickLoop env1 2 39 = tickLoop env1 3 38 :=
      tickLoop_skip env1 2 38 (hEmpty 2 (by omega) (by omega))
    have e3 : tickLoop env1 3 38 = tickLoop env1 4 37 :=
      tickLoop_skip env1 3 37 (hEmpty 3 (by omega) (by omega))
    have e4 : tickLoop env1 4 37 = tickLoop env1 5 36 :=
      tickLoop_skip env1 4 36 (hEmpty 4 (by omega) (by omega))
    have e5 : tickLoop env1 5 36 = (1, some 5) := tickLoop_hit env1 5 35 hd5 hb5
    rw [e1, e2, e3, e4, e5]
  · show some (tickLoop env2 1 40) = some (0, none)
    rw [tickLoop_all_empty env2 40 1 (fun k hk1 hk2 => hNever k hk1 (by omega))]

/-- Witness for C2: the surface appears on tick 5 only in `envHit` and
never in `envEmpty`. -/
theorem retry_watcher_scenarios_witness :
    tryBindWithRetries true envHit 40 50 = some (1, some 5) ∧
    tryBindWithRetries true envEmpty 40 50 = some (0, none) ∧
    tickLoop envEmpty 1 (7 + 1) = tickLoop envEmpty (1 + 1) 7 :=
  retry_watcher_scenarios envHit envEmpty envEmpty rootC 1 7
    (fun k _ hk2 => by
      unfold envHit
      rw [if_neg (by omega)]
      rfl)
    rfl rfl (fun k _ _ => rfl) rfl

/-- Claim C6: every region definition of the registry satisfies
left + width ≤ 100 and top + height ≤ 100 after the per-field clamping the
renderer applies; the region is kept (filtered only by view, never
rejected for its geometry); and clamping always lands each percentage in
[0, 100], so a violating definition would be clamped, not rejected. -/
theorem regions_clamped_within_bounds (r : MuscleRegion)
    (h : r ∈ SAMPLE_REGIONS) :
    ((renderedBox r).left + (renderedBox r).width ≤ 100 ∧
      (renderedBox r).top + (renderedBox r).height ≤ 100) ∧
    r ∈ filteredRegions SAMPLE_REGIONS r.view ∧
    ∀ q : ℚ, 0 ≤ clamp q 0 100 ∧ clamp q 0 100 ≤ 100 := by
  refine ⟨?_, List.mem_filter.mpr ⟨h, view_beq_refl r.view⟩,
    fun q => ⟨le_max_left 0 _, max_le (by norm_num) (min_le_left 100 q)⟩⟩
  fin_cases h <;>
    exact ⟨by norm_num [renderedBox, clamp, min_def, max_def],
      by norm_num [renderedBox, clamp, min_def, max_def]⟩

/-- Witness for C6 at the first registry entry, with the general clamp
bound instantiated at 250. -/
theorem regions_clamped_within_bounds_witness :
    ((renderedBox regionShoulders).left + (renderedBox regionShoulders).width ≤ 100 ∧
      (renderedBox regionShoulders).top + (renderedBox regionShoulders).height ≤ 100) ∧
    regionShoulders ∈ filteredRegions SAMPLE_REGIONS regionShoulders.view ∧
    (0 ≤ clamp 250 0 100 ∧ clamp 250 0 100 ≤ 100) :=
  have hm : regionShoulders ∈ SAMPLE_REGIONS := List.Mem.head _
  ⟨(regions_clamped_within_bounds regionShoulders hm).1,
    (regions_clamped_within_bounds regionShoulders hm).2.1,
    (regions_clamped_within_bounds regionShoulders hm).2.2 250⟩
